import Mathlib

/-!
Verification model of the Time-Tracker bot (`src/main.py`).

The bot keeps a process-wide map `tasks_storage = defaultdict(list)` from a
day string `"YYYY-MM-DD"` to the ordered list of task entries reported that
day.  `receive_task` appends an entry and pushes a re-rendered log to the
live channel; `send_daily_summary` (the scheduled flush) renders today's
log, pushes it to the archive channel, and deletes the day.
`format_tasks_for_day` is the pure renderer.

Delivery over the network (`bot.send_message`, `reply_text`) is modelled by
a boolean outcome supplied to each operation: `true` means the awaited send
returned, `false` means it raised, in which case the Python function's
remaining statements do not execute.
-/

/-- One stored task, the dict `{"time": current_time, "task": task_description}`
built at `src/main.py:87`. -/
structure TaskEntry where
  time : String
  task : String
  deriving DecidableEq, Repr

/-- The type of `tasks_storage`: a map from day strings to the day's entries.
`none` models the key being absent from the dict. -/
def Storage : Type := String → Option (List TaskEntry)

/-- The `tasks_storage` value at process start: an empty `defaultdict(list)`. -/
def empty_storage : Storage := fun _ => none

/-- The append `tasks_storage[d].append(e)` (`src/main.py:87`): `defaultdict(list)`
indexing creates the day's list if absent, then the entry is appended. -/
def storage_append (s : Storage) (d : String) (e : TaskEntry) : Storage :=
  fun k => if k = d then some ((s d).getD [] ++ [e]) else s k

/-- The deletion `del tasks_storage[d]` (`src/main.py:128`). -/
def storage_erase (s : Storage) (d : String) : Storage :=
  fun k => if k = d then none else s k

/-- Splitting a character list at every newline, keeping empty segments:
the recursion behind `pySplitLines`.  The result is never empty. -/
def splitNl : List Char → List (List Char)
  | [] => [[]]
  | c :: rest =>
    match splitNl rest with
    | [] => [[c]]
    | l :: ls => if c = '\n' then [] :: l :: ls else (c :: l) :: ls

/-- Python's `task_desc.split('\n')` (`src/main.py:57`): the list of lines
of a string, split at every newline, empty segments kept, and `[""]` for
the empty string. -/
def pySplitLines (s : String) : List String :=
  (splitNl s.data).map fun cs => ⟨cs⟩

/-- The branch glyph for the entry at index `i` of `n` entries
(`src/main.py:54`): '└' for the last item, '├' for others. -/
def glyphFor (i n : Nat) : String := if i = n - 1 then "└" else "├"

/-- The output lines one task entry contributes (`src/main.py:56-62`):
the description is split on line breaks; the first line carries the branch
glyph, the time and a dash; each additional description line becomes its own
output line behind the fixed 23-character indent, with no glyph. -/
def entryBlock (glyph : String) (e : TaskEntry) : List String :=
  let lines := pySplitLines e.task
  (glyph ++ e.time ++ "─  " ++ lines.headD "") ::
    lines.tail.map (fun l => " |                     " ++ l)

/-- The blocks of all entries of a day, enumerated as the Python loop at
`src/main.py:49` does, the glyph chosen from the entry's index. -/
def taskBlocks (tasks : List TaskEntry) : List (List String) :=
  tasks.enum.map (fun p => entryBlock (glyphFor p.1 tasks.length) p.2)

/-- The renderer `format_tasks_for_day` (`src/main.py:40-64`): reads the day with
`.get(day_str, [])`, returns the fixed no-tasks message when the list is
absent or empty, and otherwise joins the header and all entry blocks with
newlines. -/
def format_tasks_for_day (s : Storage) (day_str : String) : String :=
  let tasks := (s day_str).getD []
  if tasks = [] then "Date: " ++ day_str ++ "\n\nNo tasks recorded."
  else
    String.intercalate "\n"
      (("🗓️ Date : " ++ day_str ++ "\n |") :: (taskBlocks tasks).flatten)

/-- What one run of `receive_task` (`src/main.py:79-94`) leaves behind:
the new storage, the text passed to the live-channel send, the reply sent
back to the reporter (if the run got that far), and whether the handler
reached `return ConversationHandler.END`. -/
structure ReceiveOutcome where
  storage : Storage
  liveText : String
  reporterReply : Option String
  returnedEnd : Bool

/-- The handler `receive_task` (`src/main.py:79-94`) with delivery outcome `liveOk`.
The append at line 87 is unconditional; the rendered text of the appended
state is passed to the live send at line 90; only when that send returns
does line 92 reply to the reporter and line 94 return `END`.  When the send
raises, the exception propagates: no reply, no `END`. -/
def receive_task (s : Storage) (current_date current_time : String)
    (task_description : String) (liveOk : Bool) : ReceiveOutcome :=
  let s1 := storage_append s current_date ⟨current_time, task_description⟩
  let formatted_tasks := format_tasks_for_day s1 current_date
  if liveOk then
    { storage := s1, liveText := formatted_tasks,
      reporterReply := some "✅ Task added and log updated!", returnedEnd := true }
  else
    { storage := s1, liveText := formatted_tasks,
      reporterReply := none, returnedEnd := false }

/-- What one firing of the flush job leaves behind: the new storage, the
text passed to the archive send if a send was attempted, and whether the
firing ended in a raised exception. -/
structure FlushOutcome where
  storage : Storage
  archiveText : Option String
  raised : Bool

/-- The flush job `send_daily_summary` (`src/main.py:119-130`) with delivery outcome
`archiveOk`.  When today's key is absent the body only logs: no send, no
mutation.  When present, the rendered summary is sent; `del` at line 128
runs only if the awaited send returned. -/
def send_daily_summary (s : Storage) (today_str : String) (archiveOk : Bool) :
    FlushOutcome :=
  match s today_str with
  | none => { storage := s, archiveText := none, raised := false }
  | some _ =>
    let final_summary := format_tasks_for_day s today_str
    if archiveOk then
      { storage := storage_erase s today_str, archiveText := some final_summary,
        raised := false }
    else
      { storage := s, archiveText := some final_summary, raised := true }

/-- What `error_handler` (`src/main.py:133-149`) does with an error: it
writes two records to the logger and sends nothing to any chat.  The
escaped traceback and context strings are taken as inputs. -/
structure HandlerEffects where
  logged : List String
  sentMessages : List String

/-- The model of `error_handler`: both the short record (line 135) and the assembled
`<pre>` report (lines 141-149) go to `logger.error`; no send to the
reporter or any channel occurs anywhere in the body. -/
def error_handler (tb_string update_str chat_data user_data : String) :
    HandlerEffects :=
  { logged :=
      ["Exception while handling an update:",
       "An exception was raised while handling an update\n<pre>update = "
         ++ update_str ++ "</pre>\n\n<pre>context.chat_data = " ++ chat_data
         ++ "</pre>\n\n<pre>context.user_data = " ++ user_data
         ++ "</pre>\n\n<pre>" ++ tb_string ++ "</pre>"],
    sentMessages := [] }

/-- The storage-touching events of the program, for stating invariants over
every reachable `tasks_storage` state: an append by `receive_task`, a flush
firing with its delivery outcome, and a read by the renderer. -/
inductive Event where
  | append (d : String) (e : TaskEntry)
  | flush (d : String) (ok : Bool)
  | render (d : String)
  deriving DecidableEq, Repr

/-- How each event transforms `tasks_storage`. -/
def applyEvent (s : Storage) : Event → Storage
  | .append d e => storage_append s d e
  | .flush d ok => (send_daily_summary s d ok).storage
  | .render _ => s

/-- The storage reached from process start by a sequence of events. -/
def runTrace (tr : List Event) : Storage := tr.foldl applyEvent empty_storage

/-! Sample data used by the concrete witnesses below. -/

/-- A one-line task entry. -/
def sampleEntryA : TaskEntry := ⟨"09:00 AM", "Write report"⟩

/-- A two-line task entry. -/
def sampleEntryB : TaskEntry := ⟨"11:30 AM", "Review PR\nLeave comments"⟩

/-- C2: on receipt of a task description, the store append is unconditional
and precedes the delivery attempt: whatever the live delivery outcome, the
resulting storage is exactly the appended storage, the day's list ends in
the new entry with the prior entries unchanged in front of it, and the text
handed to the live delivery is the rendering of the already-appended state. -/
theorem receive_task_append_unconditional (s : Storage) (d t desc : String)
    (liveOk : Bool) :
    (receive_task s d t desc liveOk).storage = storage_append s d ⟨t, desc⟩ ∧
    (receive_task s d t desc liveOk).storage d
      = some ((s d).getD [] ++ [⟨t, desc⟩]) ∧
    (receive_task s d t desc liveOk).liveText
      = format_tasks_for_day (storage_append s d ⟨t, desc⟩) d := by
  cases liveOk <;> simp [receive_task, storage_append]

/-- C8: for a day-key absent from the storage, the renderer returns exactly
the fixed no-tasks message naming that date, whatever the rest of the
storage holds. -/
theorem render_absent_day (s : Storage) (d : String) (h : s d = none) :
    format_tasks_for_day s d = "Date: " ++ d ++ "\n\nNo tasks recorded." := by
  simp [format_tasks_for_day, h]

/-- Witness for C8 at a storage holding a different day's entries. -/
theorem render_absent_day_witness :
    format_tasks_for_day (storage_append empty_storage "2025-01-09" sampleEntryA)
        "2025-01-10"
      = "Date: " ++ "2025-01-10" ++ "\n\nNo tasks recorded." :=
  render_absent_day (storage_append empty_storage "2025-01-09" sampleEntryA)
    "2025-01-10" (by decide)

/-- C9: a flush firing on a day whose key is absent attempts no delivery,
mutates nothing and raises nothing. -/
theorem flush_absent_day_noop (s : Storage) (d : String) (ok : Bool)
    (h : s d = none) :
    send_daily_summary s d ok
      = { storage := s, archiveText := none, raised := false } := by
  simp [send_daily_summary, h]

/-- Witness for C9 on the empty storage. -/
theorem flush_absent_day_noop_witness :
    send_daily_summary empty_storage "2025-01-10" true
      = { storage := empty_storage, archiveText := none, raised := false } :=
  flush_absent_day_noop empty_storage "2025-01-10" true rfl

/-- C1: a flush firing on a present day-key consumes the day exactly once on
delivery success (the key is removed, the rendered log was delivered), and
on delivery failure leaves the day's log in the storage unchanged and
retrievable, so that a later firing on the same day-key delivers exactly
the same rendering and then removes the day. -/
theorem flush_consumes_once_or_preserves (s : Storage) (d : String)
    (l : List TaskEntry) (h : s d = some l) :
    ((send_daily_summary s d true).storage = storage_erase s d ∧
      (send_daily_summary s d true).storage d = none ∧
      (send_daily_summary s d true).archiveText
        = some (format_tasks_for_day s d)) ∧
    ((send_daily_summary s d false).storage = s ∧
      (send_daily_summary s d false).storage d = some l ∧
      (send_daily_summary s d false).raised = true ∧
      (send_daily_summary (send_daily_summary s d false).storage d true).archiveText
        = some (format_tasks_for_day s d) ∧
      (send_daily_summary (send_daily_summary s d false).storage d true).storage d
        = none) := by
  simp [send_daily_summary, h, storage_erase]

/-- Witness for C1 at a one-entry day. -/
theorem flush_consumes_once_or_preserves_witness :
    ((send_daily_summary (storage_append empty_storage "2025-01-10" sampleEntryA)
          "2025-01-10" true).storage = storage_erase
            (storage_append empty_storage "2025-01-10" sampleEntryA) "2025-01-10" ∧
      (send_daily_summary (storage_append empty_storage "2025-01-10" sampleEntryA)
          "2025-01-10" true).storage "2025-01-10" = none ∧
      (send_daily_summary (storage_append empty_storage "2025-01-10" sampleEntryA)
          "2025-01-10" true).archiveText
        = some (format_tasks_for_day
            (storage_append empty_storage "2025-01-10" sampleEntryA) "2025-01-10")) ∧
    ((send_daily_summary (storage_append empty_storage "2025-01-10" sampleEntryA)
          "2025-01-10" false).storage
        = storage_append empty_storage "2025-01-10" sampleEntryA ∧
      (send_daily_summary (storage_append empty_storage "2025-01-10" sampleEntryA)
          "2025-01-10" false).storage "2025-01-10" = some [sampleEntryA] ∧
      (send_daily_summary (storage_append empty_storage "2025-01-10" sampleEntryA)
          "2025-01-10" false).raised = true ∧
      (send_daily_summary (send_daily_summary
            (storage_append empty_storage "2025-01-10" sampleEntryA)
            "2025-01-10" false).storage "2025-01-10" true).archiveText
        = some (format_tasks_for_day
            (storage_append empty_storage "2025-01-10" sampleEntryA) "2025-01-10") ∧
      (send_daily_summary (send_daily_summary
            (storage_append empty_storage "2025-01-10" sampleEntryA)
            "2025-01-10" false).storage "2025-01-10" true).storage "2025-01-10"
        = none) :=
  flush_consumes_once_or_preserves
    (storage_append empty_storage "2025-01-10" sampleEntryA) "2025-01-10"
    [sampleEntryA] (by decide)

/-- C10: the renderer is total on a storage state the invariant excludes: a
day-key bound to an explicitly empty list renders to exactly the same fixed
no-tasks message as an absent key, and a render event leaves the storage
mapping untouched (the read is `.get`, not `defaultdict` indexing). -/
theorem render_empty_list_like_absent (s : Storage) (d : String)
    (h : s d = some []) :
    format_tasks_for_day s d = "Date: " ++ d ++ "\n\nNo tasks recorded." ∧
    format_tasks_for_day s d = format_tasks_for_day (storage_erase s d) d ∧
    applyEvent s (Event.render d) = s := by
  refine ⟨by simp [format_tasks_for_day, h], ?_, rfl⟩
  simp [format_tasks_for_day, h, storage_erase]

/-- Witness for C10 at a storage binding the day to an empty list. -/
theorem render_empty_list_like_absent_witness :
    format_tasks_for_day
        (fun k => if k = "2025-01-10" then some [] else none) "2025-01-10"
      = "Date: " ++ "2025-01-10" ++ "\n\nNo tasks recorded." ∧
    format_tasks_for_day
        (fun k => if k = "2025-01-10" then some [] else none) "2025-01-10"
      = format_tasks_for_day
          (storage_erase (fun k => if k = "2025-01-10" then some [] else none)
            "2025-01-10") "2025-01-10" ∧
    applyEvent (fun k => if k = "2025-01-10" then some [] else none)
        (Event.render "2025-01-10")
      = fun k => if k = "2025-01-10" then some [] else none :=
  render_empty_list_like_absent
    (fun k => if k = "2025-01-10" then some [] else none) "2025-01-10" (by decide)

/-- Counterexample for C4: at a concrete live-delivery failure, `receive_task`
sends nothing back to the reporter (the reply at `src/main.py:92` sits after
the failing send) and never reaches `return ConversationHandler.END`, so the
interaction does not end as it does on the success path. -/
theorem receive_task_failure_unreported_cex :
    (receive_task empty_storage "2025-01-10" "09:00 AM" "Write report"
        false).reporterReply = none ∧
    (receive_task empty_storage "2025-01-10" "09:00 AM" "Write report"
        false).returnedEnd = false ∧
    (receive_task empty_storage "2025-01-10" "09:00 AM" "Write report"
        true).reporterReply = some "✅ Task added and log updated!" ∧
    (receive_task empty_storage "2025-01-10" "09:00 AM" "Write report"
        true).returnedEnd = true := by
  refine ⟨rfl, rfl, rfl, rfl⟩

/-- C4 as amended: on every live delivery failure the appended entry stays
stored, but no report reaches the reporter and the handler does not return
`END` — the raised exception lands in the global `error_handler`, which
only logs and sends no message to any chat. -/
theorem receive_task_failure_behavior (s : Storage) (d t desc : String) :
    (receive_task s d t desc false).storage d
      = some ((s d).getD [] ++ [⟨t, desc⟩]) ∧
    (receive_task s d t desc false).reporterReply = none ∧
    (receive_task s d t desc false).returnedEnd = false ∧
    ∀ a b c e : String, (error_handler a b c e).sentMessages = [] := by
  refine ⟨?_, rfl, rfl, fun _ _ _ _ => rfl⟩
  simp [receive_task, storage_append]

/-!
Interleaving model for the flush window.  `send_daily_summary` reads and
renders the day (lines 121-125), then suspends on `await bot.send_message`
(line 126); the deletion at line 128 runs only when the coroutine resumes.
While it is suspended the event loop may run `receive_task`, whose append
(line 87) is a synchronous statement.  A firing is therefore two atomic
steps with arbitrary appends possible between them.
-/

/-- Whether a flush coroutine is suspended on its archive send, and if so
for which day and with which already-rendered text. -/
inductive FlushPhase where
  | idle
  | sending (d : String) (text : String)
  deriving DecidableEq, Repr

/-- The shared process state: the storage, the flush coroutine's phase, and
the texts the archive channel has received. -/
structure SysState where
  storage : Storage
  phase : FlushPhase
  archive : List String

/-- The atomic actions of the event loop: an append by `receive_task`
(line 87), the start of a flush firing up to its `await` (lines 121-126),
and the flush coroutine's resumption (line 128 on success, the raised
exception on failure). -/
inductive Act where
  | task (d : String) (e : TaskEntry)
  | flushBegin (d : String)
  | flushEnd (ok : Bool)
  deriving DecidableEq, Repr

/-- One atomic step.  `flushBegin` on an absent day does nothing; the timer
is a single non-re-entrant source, so a second `flushBegin` while one firing
is suspended is ignored.  `flushEnd true` deletes the day's whole current
list — including entries appended after the render snapshot — and archives
the snapshot text. -/
def stepAct (st : SysState) : Act → SysState
  | .task d e => { st with storage := storage_append st.storage d e }
  | .flushBegin d =>
    match st.phase with
    | .idle =>
      match st.storage d with
      | none => st
      | some _ =>
        { st with phase := .sending d (format_tasks_for_day st.storage d) }
    | .sending _ _ => st
  | .flushEnd ok =>
    match st.phase with
    | .sending d text =>
      if ok then
        { storage := storage_erase st.storage d, phase := .idle,
          archive := st.archive ++ [text] }
      else { st with phase := .idle }
    | .idle => st

/-- The process state reached from start by a sequence of atomic steps. -/
def runActs (acts : List Act) : SysState :=
  acts.foldl stepAct { storage := empty_storage, phase := .idle, archive := [] }

/-- A task appended while the flush awaits its send. -/
def lateEntry : TaskEntry := ⟨"11:56 PM", "Late task"⟩

/-- The interleaving in which an append lands inside the flush window. -/
def raceActs : List Act :=
  [Act.task "2025-01-10" sampleEntryA,
   Act.flushBegin "2025-01-10",
   Act.task "2025-01-10" lateEntry,
   Act.flushEnd true]

/-- C3 fails on the code: the flush's read-render-deliver-remove is not one
exclusive critical section.  In the interleaving `raceActs` the entry
appended during the flush window is removed from the storage by the final
`del` although the text delivered to the archive is the earlier one-entry
snapshot, which differs from the rendering that includes the late entry:
the late task is silently dropped. -/
theorem flush_window_drops_concurrent_append :
    (runActs raceActs).storage "2025-01-10" = none ∧
    (runActs raceActs).archive
      = [format_tasks_for_day
          (storage_append empty_storage "2025-01-10" sampleEntryA) "2025-01-10"] ∧
    format_tasks_for_day
        (storage_append empty_storage "2025-01-10" sampleEntryA) "2025-01-10"
      ≠ format_tasks_for_day
          (storage_append (storage_append empty_storage "2025-01-10" sampleEntryA)
            "2025-01-10" lateEntry) "2025-01-10" := by
  refine ⟨by decide, by decide, by decide⟩

/-- The block list has one block per entry. -/
theorem taskBlocks_length (tasks : List TaskEntry) :
    (taskBlocks tasks).length = tasks.length := by
  simp [taskBlocks]

/-- The block at index `i` is the one `entryBlock` builds for the entry at
index `i`, with the glyph chosen from `i` against the day's length. -/
theorem taskBlocks_getD (tasks : List TaskEntry) (i : Nat)
    (hi : i < tasks.length) :
    (taskBlocks tasks).getD i []
      = entryBlock (glyphFor i tasks.length) (tasks.getD i ⟨"", ""⟩) := by
  simp [taskBlocks, List.getD_eq_getD_get?, List.getElem?_map,
    List.getElem?_enum, List.getElem?_eq_getElem hi]

/-- The first character of a block's first line is its glyph's character. -/
theorem entryBlock_head_char (g : String) (c : Char) (hg : g.data = [c])
    (e : TaskEntry) : ((entryBlock g e).headD "").data.head? = some c := by
  simp [entryBlock, String.data_append, hg]

/-- The single character behind `glyphFor`. -/
theorem glyphFor_data (i n : Nat) :
    (glyphFor i n).data = [if i = n - 1 then '└' else '├'] := by
  unfold glyphFor
  split <;> rfl

/-- C5: for a day with `N ≥ 1` entries, the block at each index `i < N` is
the block `entryBlock` builds for the entry at index `i`, its first line
starts with the terminal glyph '└' exactly when `i = N - 1`, and it starts
with the continuation glyph '├' exactly when `i ≠ N - 1` — so exactly one
block, the one for the entry at insertion index `N - 1`, is terminal. -/
theorem terminal_glyph_iff_last (tasks : List TaskEntry) (i : Nat)
    (hi : i < tasks.length) :
    (taskBlocks tasks).getD i []
      = entryBlock (glyphFor i tasks.length) (tasks.getD i ⟨"", ""⟩) ∧
    ((((taskBlocks tasks).getD i []).headD "").data.head? = some '└'
      ↔ i = tasks.length - 1) ∧
    ((((taskBlocks tasks).getD i []).headD "").data.head? = some '├'
      ↔ i ≠ tasks.length - 1) := by
  have hb := taskBlocks_getD tasks i hi
  have hc := entryBlock_head_char (glyphFor i tasks.length)
    (if i = tasks.length - 1 then '└' else '├') (glyphFor_data i tasks.length)
    (tasks.getD i ⟨"", ""⟩)
  refine ⟨hb, ?_, ?_⟩ <;> rw [hb, hc]
  · by_cases h : i = tasks.length - 1 <;> simp [h]
  · by_cases h : i = tasks.length - 1 <;> simp [h]

/-- Witness for C5 at the two-entry day of the spec's scenario, `i = 1`. -/
theorem terminal_glyph_iff_last_witness :
    (taskBlocks [sampleEntryA, sampleEntryB]).getD 1 []
      = entryBlock (glyphFor 1 [sampleEntryA, sampleEntryB].length)
          ([sampleEntryA, sampleEntryB].getD 1 ⟨"", ""⟩) ∧
    ((((taskBlocks [sampleEntryA, sampleEntryB]).getD 1 []).headD
        "").data.head? = some '└'
      ↔ 1 = [sampleEntryA, sampleEntryB].length - 1) ∧
    ((((taskBlocks [sampleEntryA, sampleEntryB]).getD 1 []).headD
        "").data.head? = some '├'
      ↔ 1 ≠ [sampleEntryA, sampleEntryB].length - 1) :=
  terminal_glyph_iff_last [sampleEntryA, sampleEntryB] 1 (by decide)

/-- C6: when a description splits on line breaks into `l0 :: rest`, the
entry's block is the glyph line carrying `l0` after the time, followed by
one output line per element of `rest` in original order, each behind the
fixed indent; the block has exactly one line per description line, the line
for the `j`-th additional description line is that line behind the indent,
and those indented lines start with a space, not a branch glyph. -/
theorem multiline_descriptions_preserved (glyph : String) (e : TaskEntry)
    (l0 : String) (rest : List String) (h : pySplitLines e.task = l0 :: rest) :
    entryBlock glyph e
      = (glyph ++ e.time ++ "─  " ++ l0)
          :: rest.map (fun l => " |                     " ++ l) ∧
    (entryBlock glyph e).length = (pySplitLines e.task).length ∧
    (∀ j, j < rest.length →
      (entryBlock glyph e).getD (j + 1) ""
        = " |                     " ++ rest.getD j "") ∧
    (∀ j, j < rest.length →
      ((entryBlock glyph e).getD (j + 1) "").data.head? = some ' ') := by
  have h1 : entryBlock glyph e
      = (glyph ++ e.time ++ "─  " ++ l0)
          :: rest.map (fun l => " |                     " ++ l) := by
    simp [entryBlock, h]
  have h2 : ∀ j, j < rest.length →
      (entryBlock glyph e).getD (j + 1) ""
        = " |                     " ++ rest.getD j "" := by
    intro j hj
    rw [h1, List.getD_cons_succ]
    simp [List.getD_eq_getD_get?, List.get?_eq_getElem?, List.getElem?_map,
      List.getElem?_eq_getElem hj]
  refine ⟨h1, by rw [h1, h]; simp, h2, ?_⟩
  intro j hj
  rw [h2 j hj, String.data_append]
  rfl

/-- Witness for C6 at the spec scenario's two-line description. -/
theorem multiline_descriptions_preserved_witness :
    entryBlock "└" sampleEntryB
      = ("└" ++ sampleEntryB.time ++ "─  " ++ "Review PR")
          :: ["Leave comments"].map (fun l => " |                     " ++ l) ∧
    (entryBlock "└" sampleEntryB).length
      = (pySplitLines sampleEntryB.task).length ∧
    (∀ j, j < ["Leave comments"].length →
      (entryBlock "└" sampleEntryB).getD (j + 1) ""
        = " |                     " ++ ["Leave comments"].getD j "") ∧
    (∀ j, j < ["Leave comments"].length →
      ((entryBlock "└" sampleEntryB).getD (j + 1) "").data.head? = some ' ') :=
  multiline_descriptions_preserved "└" sampleEntryB "Review PR"
    ["Leave comments"] (by decide)

/-- An append event writes the appended list at its own day. -/
theorem applyEvent_append_self (s : Storage) (d : String) (e : TaskEntry) :
    applyEvent s (Event.append d e) d = some ((s d).getD [] ++ [e]) := by
  simp [applyEvent, storage_append]

/-- An append event leaves every other day unread and unchanged. -/
theorem applyEvent_append_ne (s : Storage) (d d' : String) (e : TaskEntry)
    (h : d ≠ d') : applyEvent s (Event.append d' e) d = s d := by
  simp [applyEvent, storage_append, h]

/-- After a successful flush of a day, that day's key is absent — whether
it was present (and got deleted) or was absent already. -/
theorem applyEvent_flush_true_self (s : Storage) (d : String) :
    applyEvent s (Event.flush d true) d = none := by
  unfold applyEvent send_daily_summary
  cases h : s d <;> simp [h, storage_erase]

/-- A failed flush leaves the whole storage unchanged. -/
theorem applyEvent_flush_false (s : Storage) (d : String) :
    applyEvent s (Event.flush d false) = s := by
  funext k
  unfold applyEvent send_daily_summary
  cases h : s d <;> simp [h]

/-- A flush of another day leaves this day's binding unchanged. -/
theorem applyEvent_flush_ne (s : Storage) (d d' : String) (ok : Bool)
    (h : d ≠ d') : applyEvent s (Event.flush d' ok) d = s d := by
  unfold applyEvent send_daily_summary
  cases h2 : s d' <;> cases ok <;> simp [h2, storage_erase, h]

/-- No single event can bind a day to an empty list when no day was bound
to one before. -/
theorem applyEvent_keeps_nonempty (s : Storage)
    (hs : ∀ d l, s d = some l → l ≠ []) (ev : Event) :
    ∀ d l, applyEvent s ev d = some l → l ≠ [] := by
  intro d l hl
  cases ev with
  | append d' e =>
    by_cases hd : d = d'
    · subst hd
      rw [applyEvent_append_self] at hl
      cases hl
      simp
    · rw [applyEvent_append_ne s d d' e hd] at hl
      exact hs d l hl
  | flush d' ok =>
    cases ok with
    | false =>
      rw [applyEvent_flush_false] at hl
      exact hs d l hl
    | true =>
      by_cases hd : d = d'
      · subst hd
        rw [applyEvent_flush_true_self] at hl
        cases hl
      · rw [applyEvent_flush_ne s d d' true hd] at hl
        exact hs d l hl
  | render d' => exact hs d l hl

/-- Along any event sequence, no day is ever bound to an empty list. -/
theorem foldl_keeps_nonempty (tr : List Event) (s : Storage)
    (hs : ∀ d l, s d = some l → l ≠ []) :
    ∀ d l, (tr.foldl applyEvent s) d = some l → l ≠ [] := by
  induction tr generalizing s with
  | nil => exact hs
  | cons ev rest ih => exact ih (applyEvent s ev) (applyEvent_keeps_nonempty s hs ev)

/-- Decomposing "the trace `ev :: rest` contains an append of day `d` with
no successful flush of `d` after it": either `ev` is such an append and
`rest` has no successful flush of `d`, or `rest` itself contains one. -/
theorem split_cons_iff (ev : Event) (rest : List Event) (d : String) :
    (∃ tr1 e tr2, ev :: rest = tr1 ++ Event.append d e :: tr2
        ∧ Event.flush d true ∉ tr2)
      ↔ ((∃ e, ev = Event.append d e) ∧ Event.flush d true ∉ rest)
        ∨ (∃ tr1 e tr2, rest = tr1 ++ Event.append d e :: tr2
            ∧ Event.flush d true ∉ tr2) := by
  constructor
  · rintro ⟨tr1, e, tr2, heq, hni⟩
    cases tr1 with
    | nil =>
      rw [List.nil_append] at heq
      cases heq
      exact Or.inl ⟨⟨e, rfl⟩, hni⟩
    | cons a tl =>
      rw [List.cons_append] at heq
      cases heq
      exact Or.inr ⟨tl, e, tr2, rfl, hni⟩
  · rintro (⟨⟨e, he⟩, hni⟩ | ⟨tr1, e, tr2, heq, hni⟩)
    · exact ⟨[], e, rest, by rw [he, List.nil_append], hni⟩
    · exact ⟨ev :: tr1, e, tr2, by rw [heq, List.cons_append], hni⟩

/-- Propositional step for the events that leave the day's binding as it
was: when the head event is no append of the day (`¬E`) and differs from a
successful flush of the day (`N`), presence after it reduces to presence
before it. -/
theorem unchanged_present_iff {S E Q R N : Prop} (h1 : ¬E) (h2 : N) :
    (S ∨ R ∧ Q) ↔ ((E ∧ Q) ∨ S) ∨ R ∧ N ∧ Q := by
  constructor
  · rintro (hS | ⟨hR, hQ⟩)
    · exact Or.inl (Or.inr hS)
    · exact Or.inr ⟨hR, h2, hQ⟩
  · rintro ((⟨hE, -⟩ | hS) | ⟨hR, -, hQ⟩)
    · exact absurd hE h1
    · exact Or.inl hS
    · exact Or.inr ⟨hR, hQ⟩

/-- A day is present after running a trace from storage `s` exactly when
the trace contains an append of that day with no successful flush of the
day after it, or the day was present in `s` and the trace never flushed it
successfully. -/
theorem foldl_present_iff (tr : List Event) (s : Storage) (d : String) :
    ((tr.foldl applyEvent s) d).isSome
      ↔ (∃ tr1 e tr2, tr = tr1 ++ Event.append d e :: tr2
          ∧ Event.flush d true ∉ tr2)
        ∨ ((s d).isSome ∧ Event.flush d true ∉ tr) := by
  induction tr generalizing s with
  | nil =>
    constructor
    · intro h
      exact Or.inr ⟨h, by simp⟩
    · rintro (⟨tr1, e, tr2, heq, _⟩ | ⟨h, _⟩)
      · exact absurd heq (by simp)
      · exact h
  | cons ev rest ih =>
    rw [List.foldl_cons, ih (applyEvent s ev), split_cons_iff]
    have hmem : Event.flush d true ∉ ev :: rest
        ↔ ev ≠ Event.flush d true ∧ Event.flush d true ∉ rest := by
      simp [eq_comm]
    rw [hmem]
    cases ev with
    | append d' e =>
      by_cases hd : d = d'
      · subst hd
        rw [applyEvent_append_self]
        constructor
        · rintro (hS | ⟨-, hQ⟩)
          · exact Or.inl (Or.inr hS)
          · exact Or.inl (Or.inl ⟨⟨e, rfl⟩, hQ⟩)
        · rintro ((⟨-, hQ⟩ | hS) | ⟨-, -, hQ⟩)
          · exact Or.inr ⟨rfl, hQ⟩
          · exact Or.inl hS
          · exact Or.inr ⟨rfl, hQ⟩
      · rw [applyEvent_append_ne s d d' e hd]
        have h1 : ¬∃ e', Event.append d' e = Event.append d e' := by
          rintro ⟨e', he'⟩
          cases he'
          exact hd rfl
        have h2 : Event.append d' e ≠ Event.flush d true := by
          intro h
          cases h
        exact unchanged_present_iff h1 h2
    | flush d' ok =>
      have h1 : ¬∃ e', Event.flush d' ok = Event.append d e' := by
        rintro ⟨e', he'⟩
        cases he'
      by_cases hd : d = d'
      · subst hd
        cases ok with
        | true =>
          rw [applyEvent_flush_true_self]
          constructor
          · rintro (hS | ⟨hx, -⟩)
            · exact Or.inl (Or.inr hS)
            · exact absurd hx (by simp)
          · rintro ((⟨hE, -⟩ | hS) | ⟨-, hne, -⟩)
            · exact absurd hE h1
            · exact Or.inl hS
            · exact absurd rfl hne
        | false =>
          rw [applyEvent_flush_false]
          have h2 : Event.flush d false ≠ Event.flush d true := by
            intro h
            cases h
          exact unchanged_present_iff h1 h2
      · rw [applyEvent_flush_ne s d d' ok hd]
        have h2 : Event.flush d' ok ≠ Event.flush d true := by
          intro h
          cases h
          exact hd rfl
        exact unchanged_present_iff h1 h2
    | render d' =>
      have h1 : ¬∃ e', Event.render d' = Event.append d e' := by
        rintro ⟨e', he'⟩
        cases he'
      have h2 : Event.render d' ≠ Event.flush d true := by
        intro h
        cases h
      have hr : applyEvent s (Event.render d') = s := rfl
      rw [hr]
      exact unchanged_present_iff h1 h2

/-- C7: the storage invariant over every reachable state.  For any event
sequence from process start and any day-key: every present key is bound to
a non-empty list (no operation ever creates a key bound to an empty list),
and the key is present exactly when some entry was appended for the day
and no successful flush of that day happened afterwards. -/
theorem storage_invariant (tr : List Event) (d : String) :
    (∀ l, runTrace tr d = some l → l ≠ []) ∧
    ((runTrace tr d).isSome
      ↔ ∃ tr1 e tr2, tr = tr1 ++ Event.append d e :: tr2
          ∧ Event.flush d true ∉ tr2) := by
  constructor
  · intro l hl
    exact foldl_keeps_nonempty tr empty_storage
      (by intro d' l' h; simp [empty_storage] at h) d l hl
  · rw [runTrace, foldl_present_iff]
    simp [empty_storage]
